import Mathlib

/-!
Verification development for the temporal provider's reconciliation core
(`internal/clients` and `internal/controller` of the repository).

The Go code is shallowly embedded: Go `int`/`time.Duration` values are
modelled as `Int` with two's-complement wrap-around made explicit where a
multiplication can overflow, Go pointers that may be nil are modelled as
`Option`, Go `(value, error)` pairs are modelled as products with
`Option ServiceError`, and `map[string]string` is modelled as an
association list.  The remote orchestration service is external to the
repository; where a claim quantifies over remote behaviour, the remote
call's outcome is a parameter, and where a claim needs a faithful remote
(create stores exactly what was sent), a small store model is provided.
-/

namespace ProviderTemporal

/-! ## Go machine integers and durations -/

/-- Two's-complement wrap-around of a 64-bit signed integer (`int` /
`time.Duration` in Go are 64-bit; multiplication wraps). -/
def i64 (x : Int) : Int := (x + 2 ^ 63) % 2 ^ 64 - 2 ^ 63

/-- `const day = time.Hour * 24` from `internal/clients/namespace.go`, in
nanoseconds (`time.Duration` counts nanoseconds). -/
def day : Int := 24 * 3600 * 1000000000

/-! ## Enum value maps of the temporal API

`enums.ArchivalState_value` maps the shorthand enum name to its numeric
code (a missing key yields Go's zero value 0); `String()` maps the code
back to the shorthand name. -/

/-- `enums.ArchivalState_value[s]`: lookup with Go's zero value for a
missing key. -/
def archivalStateValue (s : String) : Int :=
  if s = "Unspecified" then 0
  else if s = "Disabled" then 1
  else if s = "Enabled" then 2
  else 0

/-- `enums.ArchivalState.String()`. -/
def archivalStateString (v : Int) : String :=
  if v = 0 then "Unspecified"
  else if v = 1 then "Disabled"
  else if v = 2 then "Enabled"
  else "Invalid"

/-- `enums.NamespaceState.String()`. -/
def namespaceStateString (v : Int) : String :=
  if v = 0 then "Unspecified"
  else if v = 1 then "Registered"
  else if v = 2 then "Deprecated"
  else if v = 3 then "Deleted"
  else "Invalid"

/-- `enums.IndexedValueType.String()` for search attribute types. -/
def indexedValueTypeString (v : Int) : String :=
  if v = 0 then "Unspecified"
  else if v = 1 then "Text"
  else if v = 2 then "Keyword"
  else if v = 3 then "Int"
  else if v = 4 then "Double"
  else if v = 5 then "Bool"
  else if v = 6 then "Datetime"
  else if v = 7 then "KeywordList"
  else "Invalid"

/-! ## Namespace data model (`apis/core/v1alpha1/temporalnamespace_types.go`) -/

/-- `core.TemporalNamespaceParameters`.  Optional pointer fields are
`Option`; `Data *map[string]string` is an optional association list. -/
structure TemporalNamespaceParameters where
  Name : String
  Description : Option String
  OwnerEmail : Option String
  WorkflowExecutionRetentionDays : Int
  Data : Option (List (String × String))
  HistoryArchivalState : String
  HistoryArchivalUri : Option String
  VisibilityArchivalState : String
  VisibilityArchivalUri : Option String
deriving Repr, DecidableEq

/-- `core.TemporalNamespaceObservation`. -/
structure TemporalNamespaceObservation where
  Id : String
  Name : String
  Description : Option String
  OwnerEmail : Option String
  WorkflowExecutionRetentionDays : Int
  Data : Option (List (String × String))
  HistoryArchivalState : String
  HistoryArchivalUri : Option String
  VisibilityArchivalState : String
  VisibilityArchivalUri : Option String
  State : String
deriving Repr, DecidableEq

/-! ## Comparison layer (`internal/clients/namespace.go`, NamespaceCompare) -/

/-- `clients.NamespaceCompare`: the canonical projection compared by the
controller; it has no `id` or `state` field. -/
structure NamespaceCompare where
  Name : String
  Description : Option String
  OwnerEmail : Option String
  WorkflowExecutionRetentionDays : Int
  Data : Option (List (String × String))
  HistoryArchivalState : String
  HistoryArchivalUri : Option String
  VisibilityArchivalState : String
  VisibilityArchivalUri : Option String
deriving Repr, DecidableEq

/-- The JSON object produced by `json.Marshal` on a namespace-shaped value:
for each key decoded into `NamespaceCompare`, whether it is present and its
value.  Keys that `NamespaceCompare` does not declare (`id`, `state`) are
ignored by `json.Unmarshal` and therefore not tracked. -/
structure NamespaceJson where
  name : Option String
  description : Option String
  ownerEmail : Option String
  workflowExecutionRetentionDays : Option Int
  data : Option (List (String × String))
  historyArchivalState : Option String
  historyArchivalUri : Option String
  visibilityArchivalState : Option String
  visibilityArchivalUri : Option String
deriving Repr, DecidableEq

/-- `json.Marshal` on `TemporalNamespaceParameters`: `name` has no
`omitempty`; a pointer field with `omitempty` is omitted exactly when the
pointer is nil (a pointer to the empty string is marshalled as an empty
string, not omitted); the non-pointer `omitempty` fields are omitted at
their Go zero value (0 for the retention days, the empty string for the
archival states). -/
def marshalParams (p : TemporalNamespaceParameters) : NamespaceJson where
  name := some p.Name
  description := p.Description
  ownerEmail := p.OwnerEmail
  workflowExecutionRetentionDays :=
    if p.WorkflowExecutionRetentionDays = 0 then none
    else some p.WorkflowExecutionRetentionDays
  data := p.Data
  historyArchivalState :=
    if p.HistoryArchivalState = "" then none else some p.HistoryArchivalState
  historyArchivalUri := p.HistoryArchivalUri
  visibilityArchivalState :=
    if p.VisibilityArchivalState = "" then none else some p.VisibilityArchivalState
  visibilityArchivalUri := p.VisibilityArchivalUri

/-- `json.Marshal` on `TemporalNamespaceObservation`: same field tags as
the parameters for the shared keys; the `id` and `state` keys it also
emits are dropped when unmarshalling into `NamespaceCompare`. -/
def marshalObs (o : TemporalNamespaceObservation) : NamespaceJson where
  name := some o.Name
  description := o.Description
  ownerEmail := o.OwnerEmail
  workflowExecutionRetentionDays :=
    if o.WorkflowExecutionRetentionDays = 0 then none
    else some o.WorkflowExecutionRetentionDays
  data := o.Data
  historyArchivalState :=
    if o.HistoryArchivalState = "" then none else some o.HistoryArchivalState
  historyArchivalUri := o.HistoryArchivalUri
  visibilityArchivalState :=
    if o.VisibilityArchivalState = "" then none else some o.VisibilityArchivalState
  visibilityArchivalUri := o.VisibilityArchivalUri

/-- `json.Unmarshal` into `NamespaceCompare`: a missing key leaves the Go
zero value (nil pointer, 0, empty string). -/
def unmarshalNamespaceCompare (j : NamespaceJson) : NamespaceCompare where
  Name := j.name.getD ""
  Description := j.description
  OwnerEmail := j.ownerEmail
  WorkflowExecutionRetentionDays := j.workflowExecutionRetentionDays.getD 0
  Data := j.data
  HistoryArchivalState := j.historyArchivalState.getD ""
  HistoryArchivalUri := j.historyArchivalUri
  VisibilityArchivalState := j.visibilityArchivalState.getD ""
  VisibilityArchivalUri := j.visibilityArchivalUri

/-- `MapToNamespaceCompare` applied to desired parameters (the Go function
takes `interface\x7b\x7d` and is marshal-then-unmarshal). -/
def MapToNamespaceCompareParams (p : TemporalNamespaceParameters) : NamespaceCompare :=
  unmarshalNamespaceCompare (marshalParams p)

/-- `MapToNamespaceCompare` applied to an observation. -/
def MapToNamespaceCompareObs (o : TemporalNamespaceObservation) : NamespaceCompare :=
  unmarshalNamespaceCompare (marshalObs o)

/-! ## Helpers of `internal/clients/namespace.go` -/

/-- `resolvePtrOrDefault`. -/
def resolvePtrOrDefault : Option String → String
  | none => ""
  | some s => s

/-- `createPtrOrNilIfDefault`. -/
def createPtrOrNilIfDefault (value : String) : Option String :=
  if value = "" then none else some value

/-! ## Wire requests and responses -/

/-- The fields of `workflowservice.RegisterNamespaceRequest` that
`CreateNamespace` sets. -/
structure RegisterNamespaceRequest where
  Namespace : String
  Description : String
  OwnerEmail : String
  WorkflowExecutionRetentionPeriod : Int
  Data : List (String × String)
  HistoryArchivalState : Int
  HistoryArchivalUri : String
  VisibilityArchivalState : Int
  VisibilityArchivalUri : String
deriving Repr, DecidableEq

/-- The request construction of `CreateNamespace` (lines 59-77):
`retentionDuration := time.Duration(days) * day` wraps in 64 bits, nil
`Data` becomes the nil map (indistinguishable from the empty map by the
length checks downstream), and nil pointers become empty strings. -/
def buildRegisterNamespaceRequest (p : TemporalNamespaceParameters) : RegisterNamespaceRequest where
  Namespace := p.Name
  Description := resolvePtrOrDefault p.Description
  OwnerEmail := resolvePtrOrDefault p.OwnerEmail
  WorkflowExecutionRetentionPeriod := i64 (p.WorkflowExecutionRetentionDays * day)
  Data := p.Data.getD []
  HistoryArchivalState := archivalStateValue p.HistoryArchivalState
  HistoryArchivalUri := resolvePtrOrDefault p.HistoryArchivalUri
  VisibilityArchivalState := archivalStateValue p.VisibilityArchivalState
  VisibilityArchivalUri := resolvePtrOrDefault p.VisibilityArchivalUri

/-- The fields of `workflowservice.UpdateNamespaceRequest` that
`UpdateNamespaceByName` sets (UpdateInfo and Config flattened). -/
structure UpdateNamespaceRequest where
  Namespace : String
  Description : String
  OwnerEmail : String
  Data : List (String × String)
  HistoryArchivalState : Int
  HistoryArchivalUri : String
  VisibilityArchivalState : Int
  VisibilityArchivalUri : String
  WorkflowExecutionRetentionTtl : Int
deriving Repr, DecidableEq

/-- The request construction of `UpdateNamespaceByName` (lines 215-238):
`retentionTtl := time.Duration(days * int(day))` multiplies in 64-bit
`int`, so it also wraps. -/
def buildUpdateNamespaceRequest (p : TemporalNamespaceParameters) : UpdateNamespaceRequest where
  Namespace := p.Name
  Description := resolvePtrOrDefault p.Description
  OwnerEmail := resolvePtrOrDefault p.OwnerEmail
  Data := p.Data.getD []
  HistoryArchivalState := archivalStateValue p.HistoryArchivalState
  HistoryArchivalUri := resolvePtrOrDefault p.HistoryArchivalUri
  VisibilityArchivalState := archivalStateValue p.VisibilityArchivalState
  VisibilityArchivalUri := resolvePtrOrDefault p.VisibilityArchivalUri
  WorkflowExecutionRetentionTtl := i64 (p.WorkflowExecutionRetentionDays * day)

/-- The fields of `workflowservice.DescribeNamespaceResponse` read by
`mapDescribeNamespaceResponse` (NamespaceInfo and Config flattened). -/
structure DescribeNamespaceResponse where
  Id : String
  Name : String
  Description : String
  OwnerEmail : String
  Data : List (String × String)
  State : Int
  WorkflowExecutionRetentionTtl : Int
  HistoryArchivalState : Int
  HistoryArchivalUri : String
  VisibilityArchivalState : Int
  VisibilityArchivalUri : String
deriving Repr, DecidableEq

/-- `mapDescribeNamespaceResponse` (lines 172-191).  The retention mapping
is `int(*response.Config.WorkflowExecutionRetentionTtl / day)`: Go integer
division truncates toward zero (`Int.tdiv`). -/
def mapDescribeNamespaceResponse (response : DescribeNamespaceResponse) : TemporalNamespaceObservation where
  Id := response.Id
  Name := response.Name
  Description := createPtrOrNilIfDefault response.Description
  OwnerEmail := createPtrOrNilIfDefault response.OwnerEmail
  WorkflowExecutionRetentionDays := Int.tdiv response.WorkflowExecutionRetentionTtl day
  Data := if 0 < response.Data.length then some response.Data else none
  HistoryArchivalState := archivalStateString response.HistoryArchivalState
  HistoryArchivalUri := createPtrOrNilIfDefault response.HistoryArchivalUri
  VisibilityArchivalState := archivalStateString response.VisibilityArchivalState
  VisibilityArchivalUri := createPtrOrNilIfDefault response.VisibilityArchivalUri
  State := namespaceStateString response.State

/-! ## Remote service errors -/

/-- The `serviceerror` kinds the client code pattern-matches with
`errors.As`, plus a catch-all for every other remote error. -/
inductive ServiceError where
  | namespaceNotFound
  | namespaceInvalidState
  | namespaceAlreadyExists
  | other (msg : String)
deriving Repr, DecidableEq

/-- `operatorservice.DeleteNamespaceResponse`. -/
structure DeleteNamespaceResponse where
  DeletedNamespace : String
deriving Repr, DecidableEq

/-! ## Namespace client operations (`internal/clients/namespace.go`)

Each operation is a pure function of the raw outcome of the remote call it
makes, mirroring the Go body statement by statement; `(value, error)`
return pairs are products with `Option ServiceError`. -/

/-- `DescribeNamespaceByName` (lines 112-134) as a function of the remote
describe call's `(response, err)` outcome: not-found is swallowed to
`(nil, nil)`, other errors are surfaced, and a nil response with nil error
yields `(nil, nil)`. -/
def DescribeNamespaceByName (response : Option DescribeNamespaceResponse)
    (err : Option ServiceError) :
    Option TemporalNamespaceObservation × Option ServiceError :=
  match err with
  | some .namespaceNotFound => (none, none)
  | some e => (none, some e)
  | none =>
    match response with
    | none => (none, none)
    | some resp => (some (mapDescribeNamespaceResponse resp), none)

/-- `CreateNamespace` (lines 59-92) as a function of the remote register
call's error: already-exists is swallowed, every other error is returned. -/
def CreateNamespace (p : TemporalNamespaceParameters)
    (registerErr : Option ServiceError) : Option ServiceError :=
  let _createrequest := buildRegisterNamespaceRequest p
  match registerErr with
  | some .namespaceAlreadyExists => none
  | some e => some e
  | none => none

/-- `DeleteNamespaceByName` (lines 136-170) as a function of the describe
call's outcome and the delete call's outcome.  The remote delete is only
issued when the describe found the namespace; invalid-state and not-found
on delete are swallowed, other delete errors are surfaced together with the
name, and when the namespace was absent the describe error (if any) is
surfaced. -/
def DeleteNamespaceByName (describeResponse : Option DescribeNamespaceResponse)
    (describeErr : Option ServiceError)
    (deleteCall : Option DeleteNamespaceResponse × Option ServiceError) :
    Option String × Option ServiceError :=
  match DescribeNamespaceByName describeResponse describeErr with
  | (some found, _) =>
    match deleteCall.2 with
    | some .namespaceInvalidState => (some found.Name, none)
    | some .namespaceNotFound => (some found.Name, none)
    | some e => (some found.Name, some e)
    | none => (some found.Name, none)
  | (none, err) =>
    match err with
    | some e => (none, some e)
    | none => (none, none)

/-- The loop body of `ListAllNamespaces` (lines 204-210): map the response
through `mapDescribeNamespaceResponse` and append it unless it is the
reserved system namespace or already deleted. -/
def listAllStep (namespaces : List TemporalNamespaceObservation)
    (response : DescribeNamespaceResponse) : List TemporalNamespaceObservation :=
  let mapped := mapDescribeNamespaceResponse response
  if mapped.Name != "temporal-system" && mapped.State != "Deleted" then
    namespaces ++ [mapped]
  else namespaces

/-- `ListAllNamespaces` (lines 193-213) as a function of the single page of
responses the remote returned. -/
def ListAllNamespaces (responses : List DescribeNamespaceResponse) :
    List TemporalNamespaceObservation :=
  responses.foldl listAllStep []

/-! ## A faithful remote store

The remote orchestration service is an external collaborator of the
repository.  The claims about idempotent create, delete-twice and
create-then-describe round trips posit a remote that faithfully stores
what `RegisterNamespace` sent and echoes it back on describe; this is that
environment model. -/

/-- One namespace held by the modelled remote: the id it assigned, the
register request it stored, and whether it is in a state that allows
deletion (when not, `DeleteNamespace` reports `NamespaceInvalidState`). -/
structure RemoteNamespace where
  id : String
  req : RegisterNamespaceRequest
  deletable : Bool
deriving Repr, DecidableEq

/-- The modelled remote service: namespaces keyed by name. -/
structure Remote where
  namespaces : List (String × RemoteNamespace)
deriving Repr, DecidableEq

/-- First-match lookup by name (Go map indexing). -/
def lookupNs : List (String × RemoteNamespace) → String → Option RemoteNamespace
  | [], _ => none
  | kv :: rest, n => if kv.1 = n then some kv.2 else lookupNs rest n

/-- The describe response the remote builds from a stored namespace:
exactly the stored register request, in the `Registered` state (code 1). -/
def RemoteNamespace.toDescribeResponse (ns : RemoteNamespace) : DescribeNamespaceResponse where
  Id := ns.id
  Name := ns.req.Namespace
  Description := ns.req.Description
  OwnerEmail := ns.req.OwnerEmail
  Data := ns.req.Data
  State := 1
  WorkflowExecutionRetentionTtl := ns.req.WorkflowExecutionRetentionPeriod
  HistoryArchivalState := ns.req.HistoryArchivalState
  HistoryArchivalUri := ns.req.HistoryArchivalUri
  VisibilityArchivalState := ns.req.VisibilityArchivalState
  VisibilityArchivalUri := ns.req.VisibilityArchivalUri

/-- The remote `DescribeNamespace` call: not-found when absent. -/
def Remote.describeCall (r : Remote) (name : String) :
    Option DescribeNamespaceResponse × Option ServiceError :=
  match lookupNs r.namespaces name with
  | some ns => (some ns.toDescribeResponse, none)
  | none => (none, some .namespaceNotFound)

/-- The remote `RegisterNamespace` call: already-exists when the name is
taken, otherwise store the request under a fresh id. -/
def Remote.registerCall (r : Remote) (req : RegisterNamespaceRequest) (newId : String) :
    Remote × Option ServiceError :=
  match lookupNs r.namespaces req.Namespace with
  | some _ => (r, some .namespaceAlreadyExists)
  | none =>
    ({ namespaces := r.namespaces ++ [(req.Namespace, ⟨newId, req, true⟩)] }, none)

/-- The remote `DeleteNamespace` call: not-found when absent,
invalid-state when the namespace forbids deletion, otherwise remove it. -/
def Remote.deleteCall (r : Remote) (name : String) :
    Remote × (Option DeleteNamespaceResponse × Option ServiceError) :=
  match lookupNs r.namespaces name with
  | none => (r, (none, some .namespaceNotFound))
  | some ns =>
    if ns.deletable then
      ({ namespaces := r.namespaces.filter (fun kv => kv.1 != name) },
       (some ⟨name⟩, none))
    else (r, (none, some .namespaceInvalidState))

/-- `CreateNamespace` run against the modelled remote. -/
def createNamespaceOn (r : Remote) (p : TemporalNamespaceParameters) (newId : String) :
    Remote × Option ServiceError :=
  let (r2, res) := r.registerCall (buildRegisterNamespaceRequest p) newId
  (r2, CreateNamespace p res)

/-- `DescribeNamespaceByName` run against the modelled remote. -/
def describeNamespaceByNameOn (r : Remote) (name : String) :
    Option TemporalNamespaceObservation × Option ServiceError :=
  let call := r.describeCall name
  DescribeNamespaceByName call.1 call.2

/-- `DeleteNamespaceByName` run against the modelled remote: the delete
call is issued (and the remote mutated) only when the describe found the
namespace, exactly as in the Go body. -/
def deleteNamespaceByNameOn (r : Remote) (name : String) :
    Remote × (Option String × Option ServiceError) :=
  let call := r.describeCall name
  match DescribeNamespaceByName call.1 call.2 with
  | (some _, _) =>
    let del := r.deleteCall name
    (del.1, DeleteNamespaceByName call.1 call.2 del.2)
  | (none, _) => (r, DeleteNamespaceByName call.1 call.2 (none, none))

/-- `create(P)` on an empty remote followed by `describeByName(P.name)`:
the observation the round trip yields. -/
def roundTripObservation (p : TemporalNamespaceParameters) (newId : String) :
    Option TemporalNamespaceObservation :=
  (describeNamespaceByNameOn (createNamespaceOn ⟨[]⟩ p newId).1 p.Name).1

/-- Validity of namespace parameters per the resource schema
(`temporalnamespace_types.go`): retention at least 1 day and the archival
states drawn from the declared enum. -/
def ValidParams (p : TemporalNamespaceParameters) : Prop :=
  1 ≤ p.WorkflowExecutionRetentionDays
  ∧ (p.HistoryArchivalState = "Disabled" ∨ p.HistoryArchivalState = "Enabled")
  ∧ (p.VisibilityArchivalState = "Disabled" ∨ p.VisibilityArchivalState = "Enabled")

instance (p : TemporalNamespaceParameters) : Decidable (ValidParams p) := by
  unfold ValidParams; infer_instance

/-! ## Service construction (`internal/clients/service.go`) -/

/-- `clients.TemporalServiceConfig`.  `json.Unmarshal` leaves an absent
field at the empty string, so after parsing "absent" and "empty" coincide. -/
structure TemporalServiceConfig where
  HostPort : String
  UseTLS : Bool
  CACertPem : String
  CertPem : String
  KeyPem : String
deriving Repr, DecidableEq

/-- The external calls `NewTemporalService` can make after validating its
configuration. -/
inductive DialStep where
  | loadKeyPair
  | appendCACert
  | dial
deriving Repr, DecidableEq

/-- Outcomes of the external crypto and dial calls, which are outside the
repository. -/
structure DialEnv where
  keyPairOk : Bool
  caAppendOk : Bool
  dialOk : Bool
deriving Repr, DecidableEq

/-- Which transport credentials the dialed client was given. -/
inductive TransportKind where
  | tls
  | insecure
deriving Repr, DecidableEq

/-- `NewTemporalService` (lines 31-94) on an already-unmarshalled
configuration: the TLS material check precedes every external call, and
the returned trace records which external calls were made, in order. -/
def NewTemporalService (conf : TemporalServiceConfig) (env : DialEnv) :
    List DialStep × Except String TransportKind :=
  if conf.UseTLS then
    if conf.CACertPem = "" ∨ conf.CertPem = "" ∨ conf.KeyPem = "" then
      ([], .error "TLS is enabled but one or more of the certificates or key are missing")
    else if !env.keyPairOk then
      ([.loadKeyPair], .error "failed to load client certificate")
    else if !env.caAppendOk then
      ([.loadKeyPair, .appendCACert], .error "failed to append CA certificate")
    else if !env.dialOk then
      ([.loadKeyPair, .appendCACert, .dial], .error "failed to dial Temporal client")
    else ([.loadKeyPair, .appendCACert, .dial], .ok .tls)
  else
    if !env.dialOk then ([.dial], .error "failed to dial Temporal client")
    else ([.dial], .ok .insecure)

/-! ## Search attributes (`internal/clients/searchattribute.go` and
`internal/controller/searchattribute/searchattribute.go`) -/

/-- `core.SearchAttributeObservation`. -/
structure SearchAttributeObservation where
  Name : String
  «Type» : String
  TemporalNamespaceName : String
deriving Repr, DecidableEq

/-- The field of `operatorservice.ListSearchAttributesResponse` the client
reads: the custom attribute map (name to `IndexedValueType` code). -/
structure ListSearchAttributesResponse where
  CustomAttributes : List (String × Int)
deriving Repr, DecidableEq

/-- A Go execution that either returns a value or panics on a nil-pointer
dereference. -/
inductive GoExec (α : Type) where
  | ok (value : α)
  | panicNilDeref
deriving Repr, DecidableEq

/-- `ListSearchAttributesByNamespace` (lines 81-108) as a function of the
remote list call's `(response, err)` outcome.  After the error check, the
slice allocation reads `len(response.CustomAttributes)`, dereferencing
`response` before the `response == nil` guard; the guard itself is kept in
place below it. -/
def ListSearchAttributesByNamespace (nsName : String)
    (response : Option ListSearchAttributesResponse) (err : Option ServiceError) :
    GoExec (Option (List SearchAttributeObservation) × Option ServiceError) :=
  match err with
  | some e => .ok (none, some e)
  | none =>
    match response with
    | none => .panicNilDeref
    | some resp =>
      if response = none then .ok (some [], none)
      else
        .ok (some (resp.CustomAttributes.map (fun a =>
              { Name := a.1
                «Type» := indexedValueTypeString a.2
                TemporalNamespaceName := nsName })), none)

/-- The piece of a SearchAttribute managed resource the Update hook reads:
its recorded external name. -/
structure SearchAttributeResource where
  externalName : String
deriving Repr, DecidableEq

/-- A remote state for search attributes: (namespace, name, type) triples. -/
structure SearchAttributeRemote where
  attributes : List (String × String × String)
deriving Repr, DecidableEq

/-- The `Update` hook of the search attribute controller (lines 313-322):
it builds the immutable-fields error and returns; it never touches
`c.service`, so any remote state passes through unchanged. -/
def searchAttributeUpdate (cr : SearchAttributeResource) (remote : SearchAttributeRemote) :
    SearchAttributeRemote × Option String :=
  (remote,
   some ("Search Attribute " ++ cr.externalName ++ " can not be updated! All properties are immutable!"))

/-! ## Connection cache
(`internal/controller/temporalnamespace/temporalnamespace.go`) -/

/-- One cached external client: the identity of the dialed service
instance and its usage counter (a Go `int`; within the counts reachable
here it never wraps, so plain `Int`). -/
structure ExternalClient where
  clientId : Nat
  usageCounter : Int
deriving Repr, DecidableEq

/-- The connector's state: the credential-keyed client cache
(`externalClientsByCreds`), the id the next dialed client will get, and
the log of `Close()` calls in order. -/
structure ConnectorState where
  externalClientsByCreds : List (List Nat × ExternalClient)
  nextClientId : Nat
  closedClients : List Nat
deriving Repr, DecidableEq

/-- The SHA-256 digest of the credential bytes, modelled as an injective
function of the bytes (collisions are out of scope): identical credential
bytes give identical keys. -/
def hashCreds (content : List Nat) : List Nat := content

/-- The connector before any Connect call. -/
def initConnector : ConnectorState := ⟨[], 0, []⟩

/-- First-match lookup in the cache (the load half of `LoadOrStore`). -/
def lookupClient : List (List Nat × ExternalClient) → List Nat → Option ExternalClient
  | [], _ => none
  | kv :: rest, k => if kv.1 = k then some kv.2 else lookupClient rest k

/-- In-place update of the entry at a key. -/
def updateClient : List (List Nat × ExternalClient) → List Nat → ExternalClient →
    List (List Nat × ExternalClient)
  | [], _, _ => []
  | kv :: rest, k, ext =>
    if kv.1 = k then (k, ext) :: rest else kv :: updateClient rest k ext

/-- `Connect` (lines 102-143), after credential resolution: dial a fresh
client, `LoadOrStore` it under the credential digest; when an entry was
already present, close the just-dialed client and reuse the entry; either
way increment the winning entry's usage counter and return it. -/
def Connect (s : ConnectorState) (creds : List Nat) : ConnectorState × ExternalClient :=
  let credHash := hashCreds creds
  let newId := s.nextClientId
  match lookupClient s.externalClientsByCreds credHash with
  | some ext =>
    let winner := { ext with usageCounter := ext.usageCounter + 1 }
    ({ externalClientsByCreds := updateClient s.externalClientsByCreds credHash winner
       nextClientId := newId + 1
       closedClients := s.closedClients ++ [newId] }, winner)
  | none =>
    let stored : ExternalClient := { clientId := newId, usageCounter := 1 }
    ({ externalClientsByCreds := s.externalClientsByCreds ++ [(credHash, stored)]
       nextClientId := newId + 1
       closedClients := s.closedClients }, stored)

/-- One entry's step of the `Disconnect` sweep (lines 149-167): decrement
the counter, coerce a negative value to zero; at zero close the client and
drop the entry, otherwise keep it. -/
def disconnectEntry (acc : List (List Nat × ExternalClient) × List Nat)
    (kv : List Nat × ExternalClient) :
    List (List Nat × ExternalClient) × List Nat :=
  let dec := kv.2.usageCounter - 1
  let floored := if dec < 0 then 0 else dec
  if floored = 0 then (acc.1, acc.2 ++ [kv.2.clientId])
  else (acc.1 ++ [(kv.1, { kv.2 with usageCounter := floored })], acc.2)

/-- `Disconnect` (lines 145-170): sweep every cached entry. -/
def Disconnect (s : ConnectorState) : ConnectorState :=
  let swept := s.externalClientsByCreds.foldl disconnectEntry ([], s.closedClients)
  { s with externalClientsByCreds := swept.1, closedClients := swept.2 }

/-- `n` successive Connect calls with the same credentials. -/
def connectN (s : ConnectorState) (creds : List Nat) : Nat → ConnectorState
  | 0 => s
  | n + 1 => (Connect (connectN s creds n) creds).1

/-- `n` successive Disconnect sweeps. -/
def disconnectN (s : ConnectorState) : Nat → ConnectorState
  | 0 => s
  | n + 1 => Disconnect (disconnectN s n)

/-! ## Theorems -/

/-- C7: for every SearchAttribute managed resource, the Update hook
unconditionally fails with the immutable-fields error and performs no
remote call, leaving any remote state unchanged. -/
theorem C7_search_attribute_update_always_fails (cr : SearchAttributeResource)
    (remote : SearchAttributeRemote) :
    (searchAttributeUpdate cr remote).1 = remote
    ∧ ((searchAttributeUpdate cr remote).2).isSome = true :=
  ⟨rfl, rfl⟩

theorem listAll_foldl_eq (responses : List DescribeNamespaceResponse)
    (acc : List TemporalNamespaceObservation) :
    responses.foldl listAllStep acc
      = acc ++ (responses.map mapDescribeNamespaceResponse).filter
          (fun x => x.Name != "temporal-system" && x.State != "Deleted") := by
  induction responses generalizing acc with
  | nil => simp
  | cons r rest ih =>
    simp only [List.foldl_cons, List.map_cons, List.filter_cons, listAllStep]
    by_cases h : (mapDescribeNamespaceResponse r).Name != "temporal-system"
        && (mapDescribeNamespaceResponse r).State != "Deleted"
    · simp [h, ih]
    · simp [h, ih]

/-- C8: `ListAllNamespaces` returns exactly the mapped observations whose
name is not the reserved system namespace and whose state is not Deleted,
in the order of the remote response; every other namespace of the response
appears in the result. -/
theorem C8_list_filters_reserved_and_deleted
    (responses : List DescribeNamespaceResponse)
    (o : TemporalNamespaceObservation)
    (ho : o ∈ responses.map mapDescribeNamespaceResponse)
    (hkeep : o.Name ≠ "temporal-system" ∧ o.State ≠ "Deleted") :
    ListAllNamespaces responses
      = (responses.map mapDescribeNamespaceResponse).filter
          (fun x => x.Name != "temporal-system" && x.State != "Deleted")
    ∧ o ∈ ListAllNamespaces responses := by
  have heq : ListAllNamespaces responses
      = (responses.map mapDescribeNamespaceResponse).filter
          (fun x => x.Name != "temporal-system" && x.State != "Deleted") := by
    simpa [ListAllNamespaces] using listAll_foldl_eq responses []
  refine ⟨heq, ?_⟩
  rw [heq, List.mem_filter]
  exact ⟨ho, by simp [hkeep.1, hkeep.2]⟩

/-- A describe response used to instantiate list and round-trip claims. -/
def exampleDescribeResponse : DescribeNamespaceResponse where
  Id := "id-1"
  Name := "ns1"
  Description := ""
  OwnerEmail := ""
  Data := []
  State := 1
  WorkflowExecutionRetentionTtl := 2592000000000000
  HistoryArchivalState := 1
  HistoryArchivalUri := ""
  VisibilityArchivalState := 1
  VisibilityArchivalUri := ""

theorem C8_witness :
    ListAllNamespaces [exampleDescribeResponse]
      = ([exampleDescribeResponse].map mapDescribeNamespaceResponse).filter
          (fun x => x.Name != "temporal-system" && x.State != "Deleted")
    ∧ mapDescribeNamespaceResponse exampleDescribeResponse
        ∈ ListAllNamespaces [exampleDescribeResponse] :=
  C8_list_filters_reserved_and_deleted [exampleDescribeResponse]
    (mapDescribeNamespaceResponse exampleDescribeResponse) (by decide) (by decide)

/-- C9: with TLS requested, a missing CA certificate, client certificate
or client key PEM is a configuration error raised before any external
call (no client is dialed); with TLS off, the TLS material is not
consulted at all. -/
theorem C9_tls_material_required (conf conf2 : TemporalServiceConfig)
    (env env2 : DialEnv)
    (htls : conf.UseTLS = true)
    (hmissing : conf.CACertPem = "" ∨ conf.CertPem = "" ∨ conf.KeyPem = "")
    (hplain : conf2.UseTLS = false) :
    NewTemporalService conf env
      = ([], .error "TLS is enabled but one or more of the certificates or key are missing")
    ∧ NewTemporalService conf2 env2
        = NewTemporalService { conf2 with CACertPem := "", CertPem := "", KeyPem := "" } env2 := by
  constructor
  · unfold NewTemporalService
    rw [htls]
    simp [hmissing]
  · unfold NewTemporalService
    rw [hplain]
    simp

theorem C9_witness :
    NewTemporalService ⟨"host:7233", true, "", "certpem", "keypem"⟩ ⟨true, true, true⟩
      = ([], .error "TLS is enabled but one or more of the certificates or key are missing")
    ∧ NewTemporalService ⟨"host:7233", false, "ca", "certpem", "keypem"⟩ ⟨true, true, true⟩
        = NewTemporalService ⟨"host:7233", false, "", "", ""⟩ ⟨true, true, true⟩ :=
  C9_tls_material_required ⟨"host:7233", true, "", "certpem", "keypem"⟩
    ⟨"host:7233", false, "ca", "certpem", "keypem"⟩ ⟨true, true, true⟩ ⟨true, true, true⟩
    rfl (Or.inl rfl) rfl

/-- C10: when the remote list call returns a nil response with a nil
error, `ListSearchAttributesByNamespace` panics on the nil-pointer
dereference sizing the result slice, never reaching the nil-response
guard below it; for every non-nil response it returns one observation per
custom attribute with the queried namespace echoed back. -/
theorem C10_nil_guard_unreachable (nsName : String)
    (resp : ListSearchAttributesResponse) :
    ListSearchAttributesByNamespace nsName none none = .panicNilDeref
    ∧ ListSearchAttributesByNamespace nsName (some resp) none
        = .ok (some (resp.CustomAttributes.map
            (fun a => ⟨a.1, indexedValueTypeString a.2, nsName⟩)), none) := by
  constructor
  · rfl
  · simp [ListSearchAttributesByNamespace]

theorem lookupNs_filter_self (l : List (String × RemoteNamespace)) (name : String) :
    lookupNs (l.filter (fun kv => kv.1 != name)) name = none := by
  induction l with
  | nil => simp [lookupNs]
  | cons kv rest ih =>
    by_cases hk : kv.1 = name
    · simp [List.filter_cons, hk, ih]
    · simp [List.filter_cons, hk, lookupNs, ih]

theorem lookupNs_eq_none_iff (l : List (String × RemoteNamespace)) (n : String) :
    lookupNs l n = none ↔ (l.map Prod.fst).count n = 0 := by
  induction l with
  | nil => simp [lookupNs]
  | cons kv rest ih =>
    by_cases h : kv.1 = n
    · simp [lookupNs, h, List.count_cons]
    · simp [lookupNs, h, List.count_cons, ih]

theorem lookupNs_append_self (l : List (String × RemoteNamespace)) (n : String)
    (x : RemoteNamespace) (h : lookupNs l n = none) :
    lookupNs (l ++ [(n, x)]) n = some x := by
  induction l with
  | nil => simp [lookupNs]
  | cons kv rest ih =>
    by_cases hk : kv.1 = n
    · simp [lookupNs, hk] at h
    · simp only [lookupNs, hk] at h
      simp only [List.cons_append, lookupNs, if_neg hk]
      exact ih h

/-- C2: `DeleteNamespaceByName` succeeds as a no-op when the namespace is
absent at describe time and when the remote delete reports not-found or
invalid-state; only other remote errors are surfaced; hence a second
delete in a row never errors. -/
theorem C2_delete_is_permissive
    (dcall : Option DeleteNamespaceResponse × Option ServiceError)
    (dresp0 : Option DescribeNamespaceResponse)
    (dresp : DescribeNamespaceResponse)
    (dr : Option DeleteNamespaceResponse)
    (e : ServiceError) (r : Remote) (name : String)
    (hnf : e ≠ .namespaceNotFound)
    (hinv : e ≠ .namespaceInvalidState) :
    DeleteNamespaceByName none none dcall = (none, none)
    ∧ DeleteNamespaceByName dresp0 (some .namespaceNotFound) dcall = (none, none)
    ∧ DeleteNamespaceByName (some dresp) none (dr, some .namespaceInvalidState)
        = (some (mapDescribeNamespaceResponse dresp).Name, none)
    ∧ DeleteNamespaceByName (some dresp) none (dr, some .namespaceNotFound)
        = (some (mapDescribeNamespaceResponse dresp).Name, none)
    ∧ DeleteNamespaceByName (some dresp) none (dr, some e)
        = (some (mapDescribeNamespaceResponse dresp).Name, some e)
    ∧ DeleteNamespaceByName dresp0 (some e) dcall = (none, some e)
    ∧ ((deleteNamespaceByNameOn (deleteNamespaceByNameOn r name).1 name).2).2 = none := by
  refine ⟨rfl, rfl, rfl, rfl, ?_, ?_, ?_⟩
  · cases e <;> simp_all [DeleteNamespaceByName, DescribeNamespaceByName]
  · cases e <;> simp_all [DeleteNamespaceByName, DescribeNamespaceByName]
  · cases hlk : lookupNs r.namespaces name with
    | none =>
      simp [deleteNamespaceByNameOn, Remote.describeCall, hlk,
        DescribeNamespaceByName, DeleteNamespaceByName]
    | some ns =>
      by_cases hdel : ns.deletable
      · simp [deleteNamespaceByNameOn, Remote.describeCall, hlk, Remote.deleteCall,
          hdel, DescribeNamespaceByName, DeleteNamespaceByName, lookupNs_filter_self]
      · simp [deleteNamespaceByNameOn, Remote.describeCall, hlk, Remote.deleteCall,
          hdel, DescribeNamespaceByName, DeleteNamespaceByName]

theorem C2_witness :
    DeleteNamespaceByName none none (none, none) = (none, none)
    ∧ DeleteNamespaceByName none (some .namespaceNotFound) (none, none) = (none, none)
    ∧ DeleteNamespaceByName (some exampleDescribeResponse) none
        (none, some .namespaceInvalidState)
        = (some (mapDescribeNamespaceResponse exampleDescribeResponse).Name, none)
    ∧ DeleteNamespaceByName (some exampleDescribeResponse) none
        (none, some .namespaceNotFound)
        = (some (mapDescribeNamespaceResponse exampleDescribeResponse).Name, none)
    ∧ DeleteNamespaceByName (some exampleDescribeResponse) none
        (none, some (.other "boom"))
        = (some (mapDescribeNamespaceResponse exampleDescribeResponse).Name,
           some (.other "boom"))
    ∧ DeleteNamespaceByName none (some (.other "boom")) (none, none)
        = (none, some (.other "boom"))
    ∧ ((deleteNamespaceByNameOn (deleteNamespaceByNameOn ⟨[]⟩ "ns1").1 "ns1").2).2
        = none :=
  C2_delete_is_permissive (none, none) none exampleDescribeResponse none
    (.other "boom") ⟨[]⟩ "ns1" (by decide) (by decide)

/-- C3: `CreateNamespace` swallows the remote already-exists error and
surfaces every other remote error; creating the same namespace twice on a
faithful remote yields no error from either call and exactly one stored
namespace of that name. -/
theorem C3_create_swallows_already_exists
    (p : TemporalNamespaceParameters) (e : ServiceError) (r : Remote)
    (id1 id2 : String)
    (he : e ≠ .namespaceAlreadyExists)
    (hcount : ((r.namespaces.map Prod.fst).count p.Name) ≤ 1) :
    CreateNamespace p (some .namespaceAlreadyExists) = none
    ∧ CreateNamespace p (some e) = some e
    ∧ (createNamespaceOn r p id1).2 = none
    ∧ (createNamespaceOn (createNamespaceOn r p id1).1 p id2).2 = none
    ∧ (((createNamespaceOn (createNamespaceOn r p id1).1 p id2).1.namespaces.map
          Prod.fst).count p.Name) = 1 := by
  have hclassify : CreateNamespace p (some e) = some e := by
    cases e <;> simp_all [CreateNamespace]
  have hns : (buildRegisterNamespaceRequest p).Namespace = p.Name := rfl
  cases hlk : lookupNs r.namespaces p.Name with
  | some ns =>
    have hpos : (r.namespaces.map Prod.fst).count p.Name ≠ 0 := by
      intro h0
      rw [← lookupNs_eq_none_iff] at h0
      rw [hlk] at h0
      exact Option.noConfusion h0
    have hone : (r.namespaces.map Prod.fst).count p.Name = 1 := by omega
    refine ⟨rfl, hclassify, ?_, ?_, ?_⟩ <;>
      simp [createNamespaceOn, Remote.registerCall, buildRegisterNamespaceRequest,
        hlk, CreateNamespace, hone]
  | none =>
    have hzero : (r.namespaces.map Prod.fst).count p.Name = 0 :=
      (lookupNs_eq_none_iff r.namespaces p.Name).mp hlk
    have hlk2 : lookupNs (r.namespaces
        ++ [(p.Name, ⟨id1, buildRegisterNamespaceRequest p, true⟩)]) p.Name
        = some ⟨id1, buildRegisterNamespaceRequest p, true⟩ :=
      lookupNs_append_self r.namespaces p.Name _ hlk
    refine ⟨rfl, hclassify, ?_, ?_, ?_⟩
    · simp [createNamespaceOn, Remote.registerCall, hns, hlk, CreateNamespace]
    · simp [createNamespaceOn, Remote.registerCall, hns, hlk, hlk2, CreateNamespace]
    · simp [createNamespaceOn, Remote.registerCall, hns, hlk, hlk2, CreateNamespace,
        List.count_append, hzero]

/-- Namespace parameters matching the repository's default test fixture. -/
def exampleParams : TemporalNamespaceParameters where
  Name := "Test1"
  Description := some "Desc1"
  OwnerEmail := some "Test1@mail.local"
  WorkflowExecutionRetentionDays := 30
  Data := none
  HistoryArchivalState := "Disabled"
  HistoryArchivalUri := none
  VisibilityArchivalState := "Disabled"
  VisibilityArchivalUri := none

theorem C3_witness :
    CreateNamespace exampleParams (some .namespaceAlreadyExists) = none
    ∧ CreateNamespace exampleParams (some (.other "boom")) = some (.other "boom")
    ∧ (createNamespaceOn ⟨[]⟩ exampleParams "id-1").2 = none
    ∧ (createNamespaceOn (createNamespaceOn ⟨[]⟩ exampleParams "id-1").1
        exampleParams "id-2").2 = none
    ∧ (((createNamespaceOn (createNamespaceOn ⟨[]⟩ exampleParams "id-1").1
          exampleParams "id-2").1.namespaces.map Prod.fst).count exampleParams.Name)
        = 1 :=
  C3_create_swallows_already_exists exampleParams (.other "boom") ⟨[]⟩ "id-1" "id-2"
    (by decide) (by decide)

/-! ## Numeric lemmas for the retention conversion -/

theorem day_pos : (0 : Int) < day := by norm_num [day]

theorem i64_of_bounds {x : Int} (h0 : 0 ≤ x) (h1 : x < 2 ^ 63) : i64 x = x := by
  have e63 : (2 : Int) ^ 63 = 9223372036854775808 := by norm_num
  have e64 : (2 : Int) ^ 64 = 18446744073709551616 := by norm_num
  rw [e63] at h1
  unfold i64
  rw [e63, e64, Int.emod_eq_of_lt (by omega) (by omega)]
  omega

theorem retention_days_roundtrip {d : Int} (h1 : 1 ≤ d) (h2 : d * day < 2 ^ 63) :
    Int.tdiv (i64 (d * day)) day = d := by
  rw [i64_of_bounds (mul_nonneg (by omega) (le_of_lt day_pos)) h2]
  exact Int.mul_tdiv_cancel d (by norm_num [day])

/-- C5 (amended): within the representable range of a 64-bit duration,
create and update send exactly `d` times 24 hours; an observed duration
that is an exact multiple of 24 hours maps back to exactly that integer;
and on a nonnegative duration the truncating division never crosses a day
boundary. -/
theorem C5_retention_conversion (p : TemporalNamespaceParameters)
    (resp resp2 : DescribeNamespaceResponse) (k t : Int)
    (h1 : 1 ≤ p.WorkflowExecutionRetentionDays)
    (h2 : p.WorkflowExecutionRetentionDays * day < 2 ^ 63)
    (hk : resp.WorkflowExecutionRetentionTtl = k * day)
    (ht : resp2.WorkflowExecutionRetentionTtl = t)
    (ht0 : 0 ≤ t) :
    (buildRegisterNamespaceRequest p).WorkflowExecutionRetentionPeriod
      = p.WorkflowExecutionRetentionDays * day
    ∧ (buildUpdateNamespaceRequest p).WorkflowExecutionRetentionTtl
      = p.WorkflowExecutionRetentionDays * day
    ∧ (mapDescribeNamespaceResponse resp).WorkflowExecutionRetentionDays = k
    ∧ (mapDescribeNamespaceResponse resp2).WorkflowExecutionRetentionDays * day ≤ t
    ∧ t < ((mapDescribeNamespaceResponse resp2).WorkflowExecutionRetentionDays + 1) * day := by
  have hsend : i64 (p.WorkflowExecutionRetentionDays * day)
      = p.WorkflowExecutionRetentionDays * day :=
    i64_of_bounds (mul_nonneg (by omega) (le_of_lt day_pos)) h2
  have hmap : (mapDescribeNamespaceResponse resp2).WorkflowExecutionRetentionDays
      = Int.tdiv t day := by
    simp [mapDescribeNamespaceResponse, ht]
  have htdiv : Int.tdiv t day = t / day :=
    Int.tdiv_eq_ediv ht0 (le_of_lt day_pos)
  refine ⟨hsend, hsend, ?_, ?_, ?_⟩
  · simp only [mapDescribeNamespaceResponse, hk]
    exact Int.mul_tdiv_cancel k (show day ≠ 0 by norm_num [day])
  · rw [hmap, htdiv]
    exact Int.ediv_mul_le t (by norm_num [day])
  · rw [hmap, htdiv]
    exact Int.lt_ediv_add_one_mul_self t day_pos

theorem C5_witness :
    (buildRegisterNamespaceRequest exampleParams).WorkflowExecutionRetentionPeriod
      = exampleParams.WorkflowExecutionRetentionDays * day
    ∧ (buildUpdateNamespaceRequest exampleParams).WorkflowExecutionRetentionTtl
      = exampleParams.WorkflowExecutionRetentionDays * day
    ∧ (mapDescribeNamespaceResponse exampleDescribeResponse).WorkflowExecutionRetentionDays
        = 30
    ∧ (mapDescribeNamespaceResponse exampleDescribeResponse).WorkflowExecutionRetentionDays
          * day ≤ 2592000000000000
    ∧ (2592000000000000 : Int)
        < ((mapDescribeNamespaceResponse exampleDescribeResponse).WorkflowExecutionRetentionDays
            + 1) * day :=
  C5_retention_conversion exampleParams exampleDescribeResponse exampleDescribeResponse
    30 2592000000000000 (by decide) (by decide) (by decide) (by decide) (by decide)

/-- Parameters with a retention so large that its duration overflows a
64-bit signed nanosecond count. -/
def hugeRetentionParams : TemporalNamespaceParameters where
  Name := "huge"
  Description := none
  OwnerEmail := none
  WorkflowExecutionRetentionDays := 1000000
  Data := none
  HistoryArchivalState := "Disabled"
  HistoryArchivalUri := none
  VisibilityArchivalState := "Disabled"
  VisibilityArchivalUri := none

/-- C5 counterexample: at one million retention days (allowed by the
schema, which only demands at least 1), the 64-bit duration wraps, so the
sent retention is not `d` times 24 hours. -/
theorem C5_counterexample :
    1 ≤ hugeRetentionParams.WorkflowExecutionRetentionDays
    ∧ (buildRegisterNamespaceRequest hugeRetentionParams).WorkflowExecutionRetentionPeriod
        ≠ hugeRetentionParams.WorkflowExecutionRetentionDays * day
    ∧ (buildUpdateNamespaceRequest hugeRetentionParams).WorkflowExecutionRetentionTtl
        ≠ hugeRetentionParams.WorkflowExecutionRetentionDays * day := by
  refine ⟨by decide, by decide, by decide⟩

/-! ## Projection and round-trip claims -/

/-- An observed state whose provider-controlled fields coincide with the
desired parameters, differing from them only in the remote-only id and
state. -/
def observationOfParams (p : TemporalNamespaceParameters) (id state : String) :
    TemporalNamespaceObservation where
  Id := id
  Name := p.Name
  Description := p.Description
  OwnerEmail := p.OwnerEmail
  WorkflowExecutionRetentionDays := p.WorkflowExecutionRetentionDays
  Data := p.Data
  HistoryArchivalState := p.HistoryArchivalState
  HistoryArchivalUri := p.HistoryArchivalUri
  VisibilityArchivalState := p.VisibilityArchivalState
  VisibilityArchivalUri := p.VisibilityArchivalUri
  State := state

/-- C6 (amended): the canonical projection drops the remote-only id and
state and preserves every declared desired-state field, so desired and
observed that agree on all declared fields project identically whatever
the id and state; absent-versus-empty-string optional fields, however,
are not normalized (see the counterexample). -/
theorem C6_projection_drops_remote_fields (p : TemporalNamespaceParameters)
    (id1 state1 id2 state2 : String) :
    MapToNamespaceCompareObs (observationOfParams p id1 state1)
      = MapToNamespaceCompareParams p
    ∧ MapToNamespaceCompareObs (observationOfParams p id1 state1)
      = MapToNamespaceCompareObs (observationOfParams p id2 state2) :=
  ⟨rfl, rfl⟩

/-- Valid parameters whose owner email is a pointer to the empty string. -/
def emptyMailParams : TemporalNamespaceParameters where
  Name := "Test1"
  Description := none
  OwnerEmail := some ""
  WorkflowExecutionRetentionDays := 30
  Data := none
  HistoryArchivalState := "Disabled"
  HistoryArchivalUri := none
  VisibilityArchivalState := "Disabled"
  VisibilityArchivalUri := none

/-- C6 counterexample: a desired owner email pointing at the empty string
versus an observed absent owner email — a difference only in an
absent-versus-empty-string optional field — yields different projections,
a spurious diff. -/
theorem C6_counterexample :
    MapToNamespaceCompareObs
        (observationOfParams { emptyMailParams with OwnerEmail := none }
          "remote-id" "Registered")
      ≠ MapToNamespaceCompareParams emptyMailParams := by
  decide

theorem opt_string_roundtrip {o : Option String} (h : o ≠ some "") :
    createPtrOrNilIfDefault (resolvePtrOrDefault o) = o := by
  cases o with
  | none => rfl
  | some s =>
    have hs : s ≠ "" := fun hs => h (by rw [hs])
    simp [resolvePtrOrDefault, createPtrOrNilIfDefault, hs]

theorem archival_roundtrip {s : String}
    (h : s = "Disabled" ∨ s = "Enabled") :
    archivalStateString (archivalStateValue s) = s := by
  rcases h with h | h <;> rw [h] <;> decide

/-- C4 (amended): for valid parameters whose retention duration is
representable in 64 bits and whose optional fields are nil or non-empty,
create on a faithful remote followed by describe-by-name returns an
observation projecting equal to the parameters' projection. -/
theorem C4_roundtrip_projection (p : TemporalNamespaceParameters) (newId : String)
    (hv : ValidParams p)
    (hrepr : p.WorkflowExecutionRetentionDays * day < 2 ^ 63)
    (hdesc : p.Description ≠ some "")
    (hmail : p.OwnerEmail ≠ some "")
    (hhuri : p.HistoryArchivalUri ≠ some "")
    (hvuri : p.VisibilityArchivalUri ≠ some "")
    (hdata : p.Data ≠ some []) :
    (roundTripObservation p newId).map MapToNamespaceCompareObs
      = some (MapToNamespaceCompareParams p) := by
  obtain ⟨h1, hh, hvv⟩ := hv
  have hns : (buildRegisterNamespaceRequest p).Namespace = p.Name := rfl
  have hobs : roundTripObservation p newId
      = some (mapDescribeNamespaceResponse
          (RemoteNamespace.toDescribeResponse
            ⟨newId, buildRegisterNamespaceRequest p, true⟩)) := by
    simp [roundTripObservation, createNamespaceOn, Remote.registerCall, hns,
      lookupNs, describeNamespaceByNameOn, Remote.describeCall,
      DescribeNamespaceByName, CreateNamespace]
  rw [hobs, Option.map_some']
  apply congrArg
  apply congrArg unmarshalNamespaceCompare
  have hret : Int.tdiv (i64 (p.WorkflowExecutionRetentionDays * day)) day
      = p.WorkflowExecutionRetentionDays := retention_days_roundtrip h1 hrepr
  have hD := opt_string_roundtrip hdesc
  have hM := opt_string_roundtrip hmail
  have hH := opt_string_roundtrip hhuri
  have hV := opt_string_roundtrip hvuri
  have hhs := archival_roundtrip hh
  have hvs := archival_roundtrip hvv
  have hdata2 : (if 0 < (p.Data.getD []).length then some (p.Data.getD []) else none)
      = p.Data := by
    cases hd : p.Data with
    | none => simp
    | some l =>
      have hl : l ≠ [] := by
        intro h0
        exact hdata (by rw [hd, h0])
      simp [List.length_pos.mpr hl]
  have hne : p.HistoryArchivalState ≠ "" := by
    rcases hh with h | h <;> rw [h] <;> decide
  have vne : p.VisibilityArchivalState ≠ "" := by
    rcases hvv with h | h <;> rw [h] <;> decide
  simp [marshalObs, marshalParams, mapDescribeNamespaceResponse,
    RemoteNamespace.toDescribeResponse, buildRegisterNamespaceRequest,
    hret, hD, hM, hH, hV, hhs, hvs, hdata2, hne, vne]

theorem C4_witness :
    (roundTripObservation exampleParams "id-1").map MapToNamespaceCompareObs
      = some (MapToNamespaceCompareParams exampleParams) :=
  C4_roundtrip_projection exampleParams "id-1" (by decide) (by decide) (by decide)
    (by decide) (by decide) (by decide) (by decide)

/-- C4 counterexample: with an owner email pointing at the empty string
(valid parameters), the faithful round trip observes an absent owner
email, and the two projections differ. -/
theorem C4_counterexample :
    ValidParams emptyMailParams
    ∧ (roundTripObservation emptyMailParams "id-1").map MapToNamespaceCompareObs
        ≠ some (MapToNamespaceCompareParams emptyMailParams) :=
  ⟨by decide, by decide⟩

/-! ## Connection cache lemmas -/

theorem lookupClient_update_self (l : List (List Nat × ExternalClient))
    (k : List Nat) (ext x : ExternalClient) (h : lookupClient l k = some ext) :
    lookupClient (updateClient l k x) k = some x := by
  induction l with
  | nil => simp [lookupClient] at h
  | cons kv rest ih =>
    by_cases hk : kv.1 = k
    · simp [updateClient, hk, lookupClient]
    · simp only [lookupClient, if_neg hk] at h
      simp only [updateClient, if_neg hk, lookupClient]
      exact ih h

theorem lookupClient_append_self (l : List (List Nat × ExternalClient))
    (k : List Nat) (x : ExternalClient) (h : lookupClient l k = none) :
    lookupClient (l ++ [(k, x)]) k = some x := by
  induction l with
  | nil => simp [lookupClient]
  | cons kv rest ih =>
    by_cases hk : kv.1 = k
    · simp [lookupClient, hk] at h
    · simp only [lookupClient, if_neg hk] at h
      simp only [List.cons_append, lookupClient, if_neg hk]
      exact ih h

theorem Connect_found (s : ConnectorState) (creds : List Nat) (ext : ExternalClient)
    (h : lookupClient s.externalClientsByCreds (hashCreds creds) = some ext) :
    Connect s creds
      = ({ externalClientsByCreds :=
             updateClient s.externalClientsByCreds (hashCreds creds)
               { ext with usageCounter := ext.usageCounter + 1 }
           nextClientId := s.nextClientId + 1
           closedClients := s.closedClients ++ [s.nextClientId] },
         { ext with usageCounter := ext.usageCounter + 1 }) := by
  simp only [Connect, h]

theorem Connect_stored (s : ConnectorState) (creds : List Nat)
    (h : lookupClient s.externalClientsByCreds (hashCreds creds) = none) :
    Connect s creds
      = ({ externalClientsByCreds :=
             s.externalClientsByCreds
               ++ [(hashCreds creds, ⟨s.nextClientId, 1⟩)]
           nextClientId := s.nextClientId + 1
           closedClients := s.closedClients },
         ⟨s.nextClientId, 1⟩) := by
  simp only [Connect, h]

theorem connect_same_client (s : ConnectorState) (creds : List Nat) :
    ((Connect (Connect s creds).1 creds).2).clientId
      = ((Connect s creds).2).clientId := by
  cases h : lookupClient s.externalClientsByCreds (hashCreds creds) with
  | some ext =>
    have hc1 := Connect_found s creds ext h
    have h3 : lookupClient (Connect s creds).1.externalClientsByCreds (hashCreds creds)
        = some { ext with usageCounter := ext.usageCounter + 1 } := by
      rw [hc1]
      exact lookupClient_update_self _ _ _ _ h
    have hc2 := Connect_found (Connect s creds).1 creds _ h3
    rw [hc2, hc1]
  | none =>
    have hc1 := Connect_stored s creds h
    have h3 : lookupClient (Connect s creds).1.externalClientsByCreds (hashCreds creds)
        = some ⟨s.nextClientId, 1⟩ := by
      rw [hc1]
      exact lookupClient_append_self _ _ _ h
    have hc2 := Connect_found (Connect s creds).1 creds _ h3
    rw [hc2, hc1]

theorem disconnectEntry_evict (acc : List (List Nat × ExternalClient) × List Nat)
    (kv : List Nat × ExternalClient) (h : kv.2.usageCounter ≤ 1) :
    disconnectEntry acc kv = (acc.1, acc.2 ++ [kv.2.clientId]) := by
  unfold disconnectEntry
  by_cases hneg : kv.2.usageCounter - 1 < 0
  · simp [hneg]
  · have h0 : kv.2.usageCounter - 1 = 0 := by omega
    simp [hneg, h0]

theorem disconnectEntry_keep (acc : List (List Nat × ExternalClient) × List Nat)
    (kv : List Nat × ExternalClient) (h : 1 < kv.2.usageCounter) :
    disconnectEntry acc kv
      = (acc.1 ++ [(kv.1, { kv.2 with usageCounter := kv.2.usageCounter - 1 })],
         acc.2) := by
  unfold disconnectEntry
  have hneg : ¬ kv.2.usageCounter - 1 < 0 := by omega
  have h0 : ¬ kv.2.usageCounter - 1 = 0 := by omega
  simp [hneg, h0]

theorem disconnect_foldl (l : List (List Nat × ExternalClient))
    (acc : List (List Nat × ExternalClient) × List Nat) :
    l.foldl disconnectEntry acc
      = (acc.1 ++ (l.filter (fun kv => decide (1 < kv.2.usageCounter))).map
            (fun kv => (kv.1, { kv.2 with usageCounter := kv.2.usageCounter - 1 })),
         acc.2 ++ (l.filter (fun kv => decide (kv.2.usageCounter ≤ 1))).map
            (fun kv => kv.2.clientId)) := by
  induction l generalizing acc with
  | nil => simp
  | cons kv rest ih =>
    simp only [List.foldl_cons, List.filter_cons]
    by_cases h : 1 < kv.2.usageCounter
    · have hle : ¬ kv.2.usageCounter ≤ 1 := by omega
      rw [disconnectEntry_keep acc kv h, ih]
      simp [h, hle]
    · have hle : kv.2.usageCounter ≤ 1 := by omega
      rw [disconnectEntry_evict acc kv hle, ih]
      simp [h, hle]

theorem disconnect_shape (s : ConnectorState) :
    (Disconnect s).externalClientsByCreds
      = (s.externalClientsByCreds.filter
            (fun kv => decide (1 < kv.2.usageCounter))).map
          (fun kv => (kv.1, { kv.2 with usageCounter := kv.2.usageCounter - 1 }))
    ∧ (Disconnect s).closedClients
      = s.closedClients
          ++ (s.externalClientsByCreds.filter
                (fun kv => decide (kv.2.usageCounter ≤ 1))).map
              (fun kv => kv.2.clientId) := by
  unfold Disconnect
  rw [disconnect_foldl]
  simp

theorem connectN_init (creds : List Nat) :
    ∀ n : Nat, 1 ≤ n →
      ∃ L : List Nat,
        connectN initConnector creds n
          = ⟨[(hashCreds creds, ⟨0, (n : Int)⟩)], n, L⟩ ∧ L.count 0 = 0 := by
  intro n
  induction n with
  | zero => intro h; omega
  | succ m ih =>
    intro _
    by_cases hm : 1 ≤ m
    · obtain ⟨L, hL, hc⟩ := ih hm
      refine ⟨L ++ [m], ?_, ?_⟩
      · show (Connect (connectN initConnector creds m) creds).1 = _
        rw [hL]
        rw [Connect_found ⟨[(hashCreds creds, ⟨0, (m : Int)⟩)], m, L⟩ creds
          ⟨0, (m : Int)⟩ (by simp [lookupClient])]
        simp only [updateClient, if_pos rfl]
        simp [ConnectorState.mk.injEq, ExternalClient.mk.injEq]
      · rw [List.count_append, hc]
        have h0 : (0 : Nat) ∉ [m] := by
          simp only [List.mem_singleton]
          omega
        simp [List.count_eq_zero.mpr h0]
    · have hm0 : m = 0 := by omega
      subst hm0
      exact ⟨[], rfl, rfl⟩

theorem disconnectN_countdown (j : Nat) :
    ∀ (c : Int), 1 ≤ c → ∀ (k : List Nat) (cid nid : Nat) (L : List Nat),
      disconnectN ⟨[(k, ⟨cid, c + (j : Int)⟩)], nid, L⟩ j
        = ⟨[(k, ⟨cid, c⟩)], nid, L⟩ := by
  induction j with
  | zero => intro c hc k cid nid L; simp [disconnectN]
  | succ m ih =>
    intro c hc k cid nid L
    show Disconnect (disconnectN ⟨[(k, ⟨cid, c + ((m + 1 : Nat) : Int)⟩)], nid, L⟩ m) = _
    have hcast : c + ((m + 1 : Nat) : Int) = (c + 1) + (m : Int) := by push_cast; ring
    rw [hcast, ih (c + 1) (by omega)]
    unfold Disconnect
    rw [disconnect_foldl]
    have h1 : (1 : Int) < c + 1 := by omega
    have h2 : ¬ (c + 1 ≤ (1 : Int)) := by omega
    simp [h1, h2]

theorem connect_disconnect_balance (creds : List Nat) (n : Nat) (hn : 1 ≤ n) :
    (disconnectN (connectN initConnector creds n) n).externalClientsByCreds = []
    ∧ (disconnectN (connectN initConnector creds n) n).closedClients.count 0 = 1 := by
  obtain ⟨L, hstate, hcount⟩ := connectN_init creds n hn
  obtain ⟨m, rfl⟩ : ∃ m, n = m + 1 := ⟨n - 1, by omega⟩
  rw [hstate]
  show (Disconnect (disconnectN ⟨[(hashCreds creds, ⟨0, ((m + 1 : Nat) : Int)⟩)],
      m + 1, L⟩ m)).externalClientsByCreds = []
    ∧ ((Disconnect (disconnectN ⟨[(hashCreds creds, ⟨0, ((m + 1 : Nat) : Int)⟩)],
      m + 1, L⟩ m)).closedClients).count 0 = 1
  have hcast : ((m + 1 : Nat) : Int) = 1 + (m : Int) := by push_cast; ring
  rw [hcast, disconnectN_countdown m 1 (by norm_num)]
  unfold Disconnect
  rw [disconnect_foldl]
  refine ⟨by simp, ?_⟩
  simp [List.count_append, hcount]

/-- C1: the credential-keyed cache deduplicates and reference-counts
clients: a second Connect with identical credential bytes returns the same
underlying client; a Disconnect sweep decrements every entry's counter
(floored at zero, surviving counters stay positive) and closes and evicts
exactly the entries whose counter reaches zero; and N Connects with one
credential followed by N Disconnect sweeps empty the cache with the shared
client closed exactly once. -/
theorem C1_cache_refcount (s : ConnectorState) (creds : List Nat) (n : Nat)
    (kv : List Nat × ExternalClient) (hn : 1 ≤ n)
    (hkv : kv ∈ (Disconnect s).externalClientsByCreds) :
    ((Connect (Connect s creds).1 creds).2).clientId
      = ((Connect s creds).2).clientId
    ∧ (Disconnect s).externalClientsByCreds
      = (s.externalClientsByCreds.filter
            (fun e => decide (1 < e.2.usageCounter))).map
          (fun e => (e.1, { e.2 with usageCounter := e.2.usageCounter - 1 }))
    ∧ (Disconnect s).closedClients
      = s.closedClients
          ++ (s.externalClientsByCreds.filter
                (fun e => decide (e.2.usageCounter ≤ 1))).map
              (fun e => e.2.clientId)
    ∧ 0 < kv.2.usageCounter
    ∧ (disconnectN (connectN initConnector creds n) n).externalClientsByCreds = []
    ∧ (disconnectN (connectN initConnector creds n) n).closedClients.count
        ((Connect initConnector creds).2.clientId) = 1 := by
  refine ⟨connect_same_client s creds, (disconnect_shape s).1, (disconnect_shape s).2,
    ?_, (connect_disconnect_balance creds n hn).1, ?_⟩
  · rw [(disconnect_shape s).1] at hkv
    obtain ⟨e, he, rfl⟩ := List.mem_map.mp hkv
    have hgt := (List.mem_filter.mp he).2
    simp only [decide_eq_true_eq] at hgt
    simp only []
    omega
  · have hid : (Connect initConnector creds).2.clientId = 0 := rfl
    rw [hid]
    exact (connect_disconnect_balance creds n hn).2

theorem C1_witness :
    ((Connect (Connect ⟨[([7], ⟨0, 2⟩)], 1, []⟩ [7]).1 [7]).2).clientId
      = ((Connect ⟨[([7], ⟨0, 2⟩)], 1, []⟩ [7]).2).clientId
    ∧ (Disconnect ⟨[([7], ⟨0, 2⟩)], 1, []⟩).externalClientsByCreds
      = ((⟨[([7], ⟨0, 2⟩)], 1, []⟩ : ConnectorState).externalClientsByCreds.filter
            (fun e => decide (1 < e.2.usageCounter))).map
          (fun e => (e.1, { e.2 with usageCounter := e.2.usageCounter - 1 }))
    ∧ (Disconnect ⟨[([7], ⟨0, 2⟩)], 1, []⟩).closedClients
      = (⟨[([7], ⟨0, 2⟩)], 1, []⟩ : ConnectorState).closedClients
          ++ ((⟨[([7], ⟨0, 2⟩)], 1, []⟩ : ConnectorState).externalClientsByCreds.filter
                (fun e => decide (e.2.usageCounter ≤ 1))).map
              (fun e => e.2.clientId)
    ∧ 0 < (([7], ⟨0, 1⟩) : List Nat × ExternalClient).2.usageCounter
    ∧ (disconnectN (connectN initConnector [7] 2) 2).externalClientsByCreds = []
    ∧ (disconnectN (connectN initConnector [7] 2) 2).closedClients.count
        ((Connect initConnector [7]).2.clientId) = 1 :=
  C1_cache_refcount ⟨[([7], ⟨0, 2⟩)], 1, []⟩ [7] 2 ([7], ⟨0, 1⟩)
    (by decide) (by decide)

end ProviderTemporal
